import Mathlib

/-!
Verification of the build provenance registry generated in
`src/native/target/release/build/rav1e-8146bc53a8ba77e6/out/built.rs`.

The source file is a table of `pub static` constants produced by the
`built` build script.  Each constant is embedded below as a Lean
definition with the same name and the value taken verbatim from the
source.  Rust `&str` becomes `String`, `[&str; n]` becomes
`List String`, `Option<&str>` becomes `Option String`, `u32` becomes
`Nat`, `bool` becomes `Bool`.
-/

namespace Built

/-- `CI_PLATFORM: Option<&str> = None` — the CI platform detected during
compilation. -/
def CI_PLATFORM : Option String := none

/-- `PKG_VERSION: &str = "0.8.1"` — the full version. -/
def PKG_VERSION : String := "0.8.1"

/-- `PKG_VERSION_MAJOR: &str = "0"`. -/
def PKG_VERSION_MAJOR : String := "0"

/-- `PKG_VERSION_MINOR: &str = "8"`. -/
def PKG_VERSION_MINOR : String := "8"

/-- `PKG_VERSION_PATCH: &str = "1"`. -/
def PKG_VERSION_PATCH : String := "1"

/-- `PKG_VERSION_PRE: &str = ""` — the pre-release version. -/
def PKG_VERSION_PRE : String := ""

/-- `PKG_AUTHORS: &str` — colon-separated list of authors. -/
def PKG_AUTHORS : String := "Thomas Daede <tdaede@xiph.org>"

/-- `PKG_NAME: &str = "rav1e"`. -/
def PKG_NAME : String := "rav1e"

/-- `PKG_DESCRIPTION: &str`. -/
def PKG_DESCRIPTION : String := "The fastest and safest AV1 encoder"

/-- `PKG_HOMEPAGE: &str = ""`. -/
def PKG_HOMEPAGE : String := ""

/-- `PKG_LICENSE: &str = "BSD-2-Clause"`. -/
def PKG_LICENSE : String := "BSD-2-Clause"

/-- `PKG_REPOSITORY: &str`. -/
def PKG_REPOSITORY : String := "https://github.com/xiph/rav1e/"

/-- `TARGET: &str` — the target triple that was being compiled for. -/
def TARGET : String := "x86_64-pc-windows-msvc"

/-- `HOST: &str` — the host triple of the rust compiler. -/
def HOST : String := "x86_64-pc-windows-msvc"

/-- `PROFILE: &str` — `release` for release builds, `debug` otherwise. -/
def PROFILE : String := "release"

/-- `RUSTC: &str` — the compiler that cargo resolved to use. -/
def RUSTC : String :=
  "C:\\Users\\Administrator\\.rustup\\toolchains\\stable-x86_64-pc-windows-msvc\\bin\\rustc.exe"

/-- `RUSTDOC: &str` — the documentation generator cargo resolved to use. -/
def RUSTDOC : String :=
  "C:\\Users\\Administrator\\.rustup\\toolchains\\stable-x86_64-pc-windows-msvc\\bin\\rustdoc.exe"

/-- `OPT_LEVEL: &str = "3"` — value of OPT_LEVEL for the profile used. -/
def OPT_LEVEL : String := "3"

/-- `NUM_JOBS: u32 = 24` — the parallelism specified during compilation. -/
def NUM_JOBS : Nat := 24

/-- `DEBUG: bool = false` — value of DEBUG for the profile used. -/
def DEBUG : Bool := false

/-- `FEATURES: [&str; 1] = ["THREADING"]` — features enabled during
compilation. -/
def FEATURES : List String := ["THREADING"]

/-- `FEATURES_STR: &str = "THREADING"` — the features as a comma-separated
string. -/
def FEATURES_STR : String := "THREADING"

/-- `FEATURES_LOWERCASE: [&str; 1] = ["threading"]` — the features as
lowercase strings. -/
def FEATURES_LOWERCASE : List String := ["threading"]

/-- `FEATURES_LOWERCASE_STR: &str = "threading"` — the feature string from
lowercase strings. -/
def FEATURES_LOWERCASE_STR : String := "threading"

/-- `RUSTC_VERSION: &str` — the output of `rustc -V`. -/
def RUSTC_VERSION : String := "rustc 1.93.0 (254b59607 2026-01-19)"

/-- `RUSTDOC_VERSION: &str` — the output of `rustdoc -V`; the source
documents it as the empty string if `rustdoc -V` failed to execute. -/
def RUSTDOC_VERSION : String := "rustdoc 1.93.0 (254b59607 2026-01-19)"

/-- `CFG_TARGET_ARCH: &str` — given by `CARGO_CFG_TARGET_ARCH`. -/
def CFG_TARGET_ARCH : String := "x86_64"

/-- `CFG_ENDIAN: &str` — given by `CARGO_CFG_TARGET_ENDIAN`. -/
def CFG_ENDIAN : String := "little"

/-- `CFG_ENV: &str` — given by `CARGO_CFG_TARGET_ENV`. -/
def CFG_ENV : String := "msvc"

/-- `CFG_FAMILY: &str` — given by `CARGO_CFG_TARGET_FAMILY`. -/
def CFG_FAMILY : String := "windows"

/-- `CFG_OS: &str` — given by `CARGO_CFG_TARGET_OS`. -/
def CFG_OS : String := "windows"

/-- `CFG_POINTER_WIDTH: &str` — given by `CARGO_CFG_TARGET_POINTER_WIDTH`. -/
def CFG_POINTER_WIDTH : String := "64"

/-- `OVERRIDE_VARIABLES_USED: [&str; 0] = []` — override variables used
during compilation. -/
def OVERRIDE_VARIABLES_USED : List String := []

/-!
Canonical string operations used to state the spec's properties about the
constants.  They are defined structurally over `List Char` so that every
proof obligation below is settled by kernel evaluation.
-/

/-- Split a character list at every occurrence of the separator `sep`;
splitting the empty list yields one empty segment, matching the canonical
split-on-separator semantics. -/
def splitChar (sep : Char) : List Char → List (List Char)
  | [] => [[]]
  | c :: rest =>
    let r := splitChar sep rest
    if c = sep then [] :: r
    else
      match r with
      | [] => [[c]]
      | h :: t => (c :: h) :: t

/-- Split a string at every occurrence of the separator character. -/
def splitStr (sep : Char) (s : String) : List String :=
  (splitChar sep s.data).map String.mk

/-- Canonical comma join of a list of strings: elements in order separated
by single commas, no surrounding whitespace, no trailing comma. -/
def commaJoin : List String → String
  | [] => ""
  | [s] => s
  | s :: rest => s ++ "," ++ commaJoin rest

/-- Whether `p` is an initial segment of `s`. -/
def strStartsWith (s p : String) : Bool :=
  s.data.take p.data.length == p.data

/-- Whether `p` is a final segment of `s`. -/
def strEndsWith (s p : String) : Bool :=
  s.data.reverse.take p.data.length == p.data.reverse

/-- Whether `s` is a non-empty string of decimal digits, i.e. the decimal
form of a non-negative integer. -/
def isNatString (s : String) : Bool :=
  !s.data.isEmpty && s.data.all Char.isDigit

/-- ASCII lowercase transform of a string, character by character. -/
def lowerAscii (s : String) : String :=
  String.mk (s.data.map Char.toLower)

/-- Full version string assembled from its components: `major.minor.patch`,
suffixed with the pre-release component only when it is non-empty. -/
def fullVersion (a b c p : String) : String :=
  a ++ "." ++ b ++ "." ++ c ++ (if p = "" then "" else "-" ++ p)

/-!
The registry as a whole: an enumeration of the fact names declared in the
source and a total read operation returning each fact's fixed value.
-/

/-- A possible value of a build fact: string, boolean, natural number,
optional string, or string list — the value shapes occurring in the
source. -/
inductive FactValue where
  | str (s : String)
  | boolean (b : Bool)
  | nat (n : Nat)
  | optStr (o : Option String)
  | strList (l : List String)
deriving DecidableEq

/-- The names of the facts declared in the source, one constructor per
`pub static` of `built.rs`. -/
inductive FactName where
  | ciPlatform
  | pkgVersion
  | pkgVersionMajor
  | pkgVersionMinor
  | pkgVersionPatch
  | pkgVersionPre
  | pkgAuthors
  | pkgName
  | pkgDescription
  | pkgHomepage
  | pkgLicense
  | pkgRepository
  | target
  | host
  | profile
  | rustcPath
  | rustdocPath
  | optLevel
  | numJobs
  | debugFlag
  | features
  | featuresStr
  | featuresLowercase
  | featuresLowercaseStr
  | rustcVersion
  | rustdocVersion
  | cfgTargetArch
  | cfgEndian
  | cfgEnv
  | cfgFamily
  | cfgOs
  | cfgPointerWidth
  | overrideVariablesUsed
deriving DecidableEq

/-- Reading a fact by name: a total function returning the fixed value of
each `pub static` of the source. -/
def readFact : FactName → FactValue
  | .ciPlatform => .optStr CI_PLATFORM
  | .pkgVersion => .str PKG_VERSION
  | .pkgVersionMajor => .str PKG_VERSION_MAJOR
  | .pkgVersionMinor => .str PKG_VERSION_MINOR
  | .pkgVersionPatch => .str PKG_VERSION_PATCH
  | .pkgVersionPre => .str PKG_VERSION_PRE
  | .pkgAuthors => .str PKG_AUTHORS
  | .pkgName => .str PKG_NAME
  | .pkgDescription => .str PKG_DESCRIPTION
  | .pkgHomepage => .str PKG_HOMEPAGE
  | .pkgLicense => .str PKG_LICENSE
  | .pkgRepository => .str PKG_REPOSITORY
  | .target => .str TARGET
  | .host => .str HOST
  | .profile => .str PROFILE
  | .rustcPath => .str RUSTC
  | .rustdocPath => .str RUSTDOC
  | .optLevel => .str OPT_LEVEL
  | .numJobs => .nat NUM_JOBS
  | .debugFlag => .boolean DEBUG
  | .features => .strList FEATURES
  | .featuresStr => .str FEATURES_STR
  | .featuresLowercase => .strList FEATURES_LOWERCASE
  | .featuresLowercaseStr => .str FEATURES_LOWERCASE_STR
  | .rustcVersion => .str RUSTC_VERSION
  | .rustdocVersion => .str RUSTDOC_VERSION
  | .cfgTargetArch => .str CFG_TARGET_ARCH
  | .cfgEndian => .str CFG_ENDIAN
  | .cfgEnv => .str CFG_ENV
  | .cfgFamily => .str CFG_FAMILY
  | .cfgOs => .str CFG_OS
  | .cfgPointerWidth => .str CFG_POINTER_WIDTH
  | .overrideVariablesUsed => .strList OVERRIDE_VARIABLES_USED

/-- The registry's state: an assignment of values to fact names. -/
def Registry : Type := FactName → FactValue

/-- The registry state at process start: every fact already holds its
build-time value. -/
def initRegistry : Registry := readFact

/-- The operations the registry exposes to consumers: only reads — the
source declares the facts as non-`mut` statics and no writer exists. -/
inductive Op where
  | read (n : FactName)

/-- One step of the registry: a read returns the fact's value and leaves
the state untouched. -/
def step (r : Registry) : Op → Registry × FactValue
  | .read n => (r, r n)

/-- Execute a sequence of operations from a registry state, returning the
final state. -/
def runOps (r : Registry) : List Op → Registry
  | [] => r
  | op :: rest => runOps (step r op).1 rest

/-!
The absent-capable facts.  The source has exactly two facts whose
documented contract includes an absent case: `CI_PLATFORM`, typed
`Option<&str>` with `None` for "not detected", and `RUSTDOC_VERSION`,
typed `&str` with its doc comment stating it is the empty string when
`rustdoc -V` failed to execute.
-/

/-- The facts of the source whose contract includes an absent case. -/
inductive AbsentCapableFact where
  | ciPlatform
  | rustdocVersion
deriving DecidableEq

/-- Whether the fact's absent case is represented by an explicit absent
value of a sum/option type, as declared in the source: `CI_PLATFORM` is
`Option<&str>` (absence is `None`); `RUSTDOC_VERSION` is a plain `&str`
whose documented absent case is the empty string. -/
def absenceIsExplicitOption : AbsentCapableFact → Bool
  | .ciPlatform => true
  | .rustdocVersion => false

/-!
Claim theorems.
-/

/-- Claim C1: for each collection fact paired with its canonical joined
form — `FEATURES` with `FEATURES_STR` and `FEATURES_LOWERCASE` with
`FEATURES_LOWERCASE_STR` — splitting the joined string on the comma
separator yields exactly the elements of the collection in the same
order, every element (hence every segment) is non-empty, and the joined
string does not end in a trailing separator. -/
theorem c1_join_split_consistent :
    (splitStr ',' FEATURES_STR = FEATURES ∧
      (∀ s ∈ FEATURES, s ≠ "") ∧
      strEndsWith FEATURES_STR "," = false) ∧
    (splitStr ',' FEATURES_LOWERCASE_STR = FEATURES_LOWERCASE ∧
      (∀ s ∈ FEATURES_LOWERCASE, s ≠ "") ∧
      strEndsWith FEATURES_LOWERCASE_STR "," = false) := by
  decide

/-- Claim C2: `FEATURES_LOWERCASE` is element-wise the lowercase transform
of `FEATURES`, with the same length and order; concretely the feature list
is `["THREADING"]`, its lowercase list is `["threading"]`, the joined form
is `"THREADING"` and the lowercase joined form is `"threading"`. -/
theorem c2_lowercase_transform :
    FEATURES_LOWERCASE = FEATURES.map lowerAscii ∧
    FEATURES_LOWERCASE.length = FEATURES.length ∧
    FEATURES = ["THREADING"] ∧
    FEATURES_LOWERCASE = ["threading"] ∧
    FEATURES_STR = "THREADING" ∧
    FEATURES_LOWERCASE_STR = "threading" := by
  decide

/-- Claim C3: the version components are non-negative integer-valued
strings, and the full version string is `major.minor.patch` suffixed with
the pre-release component only when that component is non-empty; with
major `"0"`, minor `"8"`, patch `"1"` and empty pre-release the full
version string is `"0.8.1"`. -/
theorem c3_version_components :
    isNatString PKG_VERSION_MAJOR = true ∧
    isNatString PKG_VERSION_MINOR = true ∧
    isNatString PKG_VERSION_PATCH = true ∧
    PKG_VERSION =
      fullVersion PKG_VERSION_MAJOR PKG_VERSION_MINOR PKG_VERSION_PATCH
        PKG_VERSION_PRE ∧
    PKG_VERSION_PRE = "" ∧
    PKG_VERSION = "0.8.1" := by
  decide

/-- Claim C4, counterexample: the claim that every absent-capable fact of
the registry represents absence by an explicit absent value of a
sum/option type — never by an empty string standing for "unset" — is
false: `RUSTDOC_VERSION` is absent-capable (its documentation designates
the empty string as the value when `rustdoc -V` fails) yet is a plain
string with an empty-string sentinel, not an option type. -/
theorem c4_counterexample :
    ¬ (∀ f : AbsentCapableFact, absenceIsExplicitOption f = true) := by
  intro h
  exact absurd (h .rustdocVersion) (by decide)

/-- Claim C4, amended: `CI_PLATFORM` represents absence by the explicit
absent value `none` of an option type; `RUSTDOC_VERSION`, the other
absent-capable fact, instead uses the empty string as its documented
absent value, though in this build it holds a non-empty value, so no
actual stored value conflates emptiness with absence. -/
theorem c4_absence_representation :
    CI_PLATFORM = none ∧
    absenceIsExplicitOption .ciPlatform = true ∧
    absenceIsExplicitOption .rustdocVersion = false ∧
    RUSTDOC_VERSION ≠ "" := by
  refine ⟨rfl, rfl, rfl, ?_⟩
  decide

/-- Claim C5: the override-variable collection fact is empty — its length
is 0 — and its derived canonical comma-joined form is the empty
string. -/
theorem c5_override_variables_empty :
    OVERRIDE_VARIABLES_USED.length = 0 ∧
    commaJoin OVERRIDE_VARIABLES_USED = "" ∧
    OVERRIDE_VARIABLES_USED = [] := by
  decide

/-- Claim C6: reading a fact is pure and total — every fact name has a
value, and any two reads of the same fact return identical values. -/
theorem c6_reads_pure_total :
    (∀ n : FactName, ∃ v : FactValue, readFact n = v) ∧
    (∀ (n : FactName) (a b : FactValue),
      readFact n = a → readFact n = b → a = b) :=
  ⟨fun n => ⟨readFact n, rfl⟩, fun _ a b ha hb => ha.symm.trans hb⟩

/-- Claim C6, witness: two reads of the package-name fact both return the
string value `"rav1e"`. -/
theorem c6_reads_pure_total_witness :
    FactValue.str "rav1e" = FactValue.str "rav1e" :=
  c6_reads_pure_total.2 FactName.pkgName (FactValue.str "rav1e")
    (FactValue.str "rav1e") rfl rfl

/-- After any sequence of registry operations the state is unchanged. -/
theorem runOps_fixed (l : List Op) : ∀ r : Registry, runOps r l = r := by
  induction l with
  | nil => intro r; rfl
  | cons op rest ih =>
    intro r
    cases op with
    | read n => exact ih r

/-- Claim C7: the registry holds a single "populated" state for the whole
process: starting from the initial state in which every fact already has
its build-time value, no sequence of operations changes the state, and
every fact read after any such sequence still returns the value it was
assigned at build time — no fact is ever reassigned or mutated. -/
theorem c7_registry_single_state :
    ∀ (l : List Op) (n : FactName),
      runOps initRegistry l = initRegistry ∧
      (runOps initRegistry l) n = readFact n := by
  intro l n
  refine ⟨runOps_fixed l initRegistry, ?_⟩
  rw [runOps_fixed l initRegistry]
  rfl

/-- Claim C8: the profile-related facts are mutually consistent —
`PROFILE` is `"release"`, `DEBUG` is `false`, `OPT_LEVEL` is `"3"`, and
the debug flag is `false` exactly when the profile is `"release"`. -/
theorem c8_profile_consistent :
    PROFILE = "release" ∧
    DEBUG = false ∧
    OPT_LEVEL = "3" ∧
    (DEBUG = false ↔ PROFILE = "release") := by
  decide

/-- Claim C9: the fine-grained target facts agree with the target triple —
splitting `TARGET` on `-` yields the architecture, vendor, OS and ABI
components, matching `CFG_TARGET_ARCH`, `CFG_OS` and `CFG_ENV`;
`CFG_FAMILY` equals `CFG_OS` (`"windows"`), the pointer width is `"64"`
for the 64-bit architecture `"x86_64"`, and `HOST` equals `TARGET`. -/
theorem c9_target_facts_consistent :
    splitStr '-' TARGET = [CFG_TARGET_ARCH, "pc", CFG_OS, CFG_ENV] ∧
    CFG_TARGET_ARCH = "x86_64" ∧
    CFG_OS = "windows" ∧
    CFG_FAMILY = CFG_OS ∧
    CFG_ENV = "msvc" ∧
    CFG_POINTER_WIDTH = "64" ∧
    HOST = TARGET := by
  decide

/-- Claim C10: the toolchain version facts are non-empty and mutually
consistent — `RUSTC_VERSION` begins with `"rustc "`, `RUSTDOC_VERSION`
begins with `"rustdoc "`, both report the same toolchain version string
`"1.93.0 (254b59607 2026-01-19)"`, and `RUSTDOC_VERSION` is not the empty
string that would signal a failed probe. -/
theorem c10_toolchain_versions_consistent :
    strStartsWith RUSTC_VERSION "rustc " = true ∧
    strStartsWith RUSTDOC_VERSION "rustdoc " = true ∧
    String.mk (RUSTC_VERSION.data.drop 6) = "1.93.0 (254b59607 2026-01-19)" ∧
    String.mk (RUSTDOC_VERSION.data.drop 8) =
      String.mk (RUSTC_VERSION.data.drop 6) ∧
    RUSTDOC_VERSION ≠ "" := by
  decide

end Built
